import Mathlib

/-!
# Verification of the web-sound-analyzer core

A shallow embedding, in Lean 4, of the configuration store, the measurement
controller (acquisition state machine and hop-time gate), the panel history
buffers, the frequency-range resolver, and the settings-edit session of the
web sound analyzer.  JavaScript numbers are modelled as rationals (`ℚ`);
values that are only compared or displayed after a `Math.log10` are mapped
into `ℝ` via `Real.logb 10` at the boundary, exactly where the source calls
`Math.log10`.  Fallible readings (a `null` array, a non-finite text input)
are modelled with `Option`.
-/

/- ===================== Configuration data model ===================== -/

/-- The configuration record: the fields of `DEFAULT_CONFIG` in `app.js`,
plus the `overlap` field read (with `?? 0.0` fallback) by
`MeasurementController.updateConfig`, plus the derived `fftBinHz` field that
`ConfigManager.buildDerived` attaches (absent — `none` — until derived). -/
structure Config where
  graphType : String
  autoScale : Bool
  dbDisplay : Bool
  freqLog : Bool
  maxAmplitudeInput : ℚ
  minAmplitudeInput : ℚ
  freqMinInput : ℚ
  freqMaxInput : ℚ
  recordDurationSec : ℚ
  colorScale : String
  autoScrollMode : Bool
  autoPeakCursor : Bool
  samplingRate : ℚ
  fftWindow : String
  fftSize : ℚ
  dbCorrectionGain : ℚ
  overlap : Option ℚ
  fftBinHz : Option ℚ
deriving DecidableEq, Repr

/-- `DEFAULT_CONFIG` of `app.js`. -/
def DEFAULT_CONFIG : Config where
  graphType := "fftWaterfall"
  autoScale := false
  dbDisplay := true
  freqLog := true
  maxAmplitudeInput := 100
  minAmplitudeInput := 0
  freqMinInput := 0
  freqMaxInput := 20000
  recordDurationSec := 60
  colorScale := "Standard"
  autoScrollMode := false
  autoPeakCursor := false
  samplingRate := 44100
  fftWindow := "Blackman"
  fftSize := 2048
  dbCorrectionGain := 100
  overlap := none
  fftBinHz := none

namespace ConfigManager

/-- `ConfigManager.normalize`: replace a non-positive sampling rate by 44100
and a non-positive FFT size by 1024; every other field passes through. -/
def normalize (cfg : Config) : Config :=
  let cfg1 := if cfg.samplingRate ≤ 0 then { cfg with samplingRate := 44100 } else cfg
  if cfg1.fftSize ≤ 0 then { cfg1 with fftSize := 1024 } else cfg1

/-- `ConfigManager.buildDerived`: attach `fftBinHz = samplingRate / fftSize`. -/
def buildDerived (cfg : Config) : Config :=
  { cfg with fftBinHz := some (cfg.samplingRate / cfg.fftSize) }

/-- `ConfigManager.apply`: the stored current snapshot becomes
`buildDerived (normalize newConfig)`. -/
def apply (newConfig : Config) : Config :=
  buildDerived (normalize newConfig)

theorem normalize_eq (cfg : Config) :
    normalize cfg =
      { cfg with
        samplingRate := if cfg.samplingRate ≤ 0 then 44100 else cfg.samplingRate,
        fftSize := if cfg.fftSize ≤ 0 then 1024 else cfg.fftSize } := by
  unfold normalize
  by_cases h1 : cfg.samplingRate ≤ 0 <;> by_cases h2 : cfg.fftSize ≤ 0 <;> simp [h1, h2]

theorem normalize_samplingRate_pos (cfg : Config) : 0 < (normalize cfg).samplingRate := by
  rw [normalize_eq]
  dsimp only
  split_ifs with h
  · norm_num
  · linarith [not_le.mp h]

theorem normalize_fftSize_pos (cfg : Config) : 0 < (normalize cfg).fftSize := by
  rw [normalize_eq]
  dsimp only
  split_ifs with h
  · norm_num
  · linarith [not_le.mp h]

theorem normalize_of_pos (cfg : Config) (h1 : 0 < cfg.samplingRate)
    (h2 : 0 < cfg.fftSize) : normalize cfg = cfg := by
  rw [normalize_eq, if_neg (not_le.mpr h1), if_neg (not_le.mpr h2)]

end ConfigManager

/- ===================== WebAudioSpectrumEngine ===================== -/

namespace WebAudioSpectrumEngine

/-- `WebAudioSpectrumEngine.getFrequencyAxis`: an array of `fftSize / 2`
bin frequencies, entry `i` being `i * (sampleRate / fftSize)`. -/
def getFrequencyAxis (sampleRate : ℚ) (fftSize : ℕ) : List ℚ :=
  (List.range (fftSize / 2)).map (fun (i : ℕ) => (i : ℚ) * (sampleRate / (fftSize : ℚ)))

end WebAudioSpectrumEngine

/- ===================== Claim C6 ===================== -/

/-- C6: `ConfigManager.apply` is idempotent — applying apply's own output
again yields the identical normalized-plus-derived snapshot, with no drift
in any field including the derived `fftBinHz`. -/
theorem configManager_apply_idempotent (x : Config) :
    ConfigManager.apply (ConfigManager.apply x) = ConfigManager.apply x := by
  unfold ConfigManager.apply
  have hs := ConfigManager.normalize_samplingRate_pos x
  have hf := ConfigManager.normalize_fftSize_pos x
  have hnorm : ConfigManager.normalize (ConfigManager.buildDerived (ConfigManager.normalize x))
      = ConfigManager.buildDerived (ConfigManager.normalize x) := by
    apply ConfigManager.normalize_of_pos <;> simpa [ConfigManager.buildDerived]
  rw [hnorm]
  simp [ConfigManager.buildDerived]

/- ===================== Claim C7 ===================== -/

/-- C7: normalization replaces a non-positive sampling rate or FFT size with
a safe positive default and leaves every other field unchanged; the derived
field satisfies `fftBinHz = samplingRate / fftSize`; and for positive
`sampleRate` and `fftSize` the generated frequency axis has exactly
`fftSize / 2` entries, entry `i` equal to `i * (sampleRate / fftSize)`,
starting at `0`. -/
theorem configManager_normalize_derive_axis (cfg : Config) (sampleRate : ℚ) (fftSize : ℕ)
    (hsr : 0 < sampleRate) (hfft : 0 < fftSize) :
    ((cfg.samplingRate ≤ 0 → (ConfigManager.normalize cfg).samplingRate = 44100) ∧
     (0 < cfg.samplingRate → (ConfigManager.normalize cfg).samplingRate = cfg.samplingRate) ∧
     (cfg.fftSize ≤ 0 → (ConfigManager.normalize cfg).fftSize = 1024) ∧
     (0 < cfg.fftSize → (ConfigManager.normalize cfg).fftSize = cfg.fftSize) ∧
     0 < (ConfigManager.normalize cfg).samplingRate ∧
     0 < (ConfigManager.normalize cfg).fftSize) ∧
    ((ConfigManager.normalize cfg).graphType = cfg.graphType ∧
     (ConfigManager.normalize cfg).autoScale = cfg.autoScale ∧
     (ConfigManager.normalize cfg).dbDisplay = cfg.dbDisplay ∧
     (ConfigManager.normalize cfg).freqLog = cfg.freqLog ∧
     (ConfigManager.normalize cfg).maxAmplitudeInput = cfg.maxAmplitudeInput ∧
     (ConfigManager.normalize cfg).minAmplitudeInput = cfg.minAmplitudeInput ∧
     (ConfigManager.normalize cfg).freqMinInput = cfg.freqMinInput ∧
     (ConfigManager.normalize cfg).freqMaxInput = cfg.freqMaxInput ∧
     (ConfigManager.normalize cfg).recordDurationSec = cfg.recordDurationSec ∧
     (ConfigManager.normalize cfg).colorScale = cfg.colorScale ∧
     (ConfigManager.normalize cfg).autoScrollMode = cfg.autoScrollMode ∧
     (ConfigManager.normalize cfg).autoPeakCursor = cfg.autoPeakCursor ∧
     (ConfigManager.normalize cfg).fftWindow = cfg.fftWindow ∧
     (ConfigManager.normalize cfg).dbCorrectionGain = cfg.dbCorrectionGain ∧
     (ConfigManager.normalize cfg).overlap = cfg.overlap ∧
     (ConfigManager.normalize cfg).fftBinHz = cfg.fftBinHz) ∧
    ((ConfigManager.apply cfg).fftBinHz =
      some ((ConfigManager.normalize cfg).samplingRate / (ConfigManager.normalize cfg).fftSize)) ∧
    ((WebAudioSpectrumEngine.getFrequencyAxis sampleRate fftSize).length = fftSize / 2 ∧
     (∀ i (h : i < (WebAudioSpectrumEngine.getFrequencyAxis sampleRate fftSize).length),
        (WebAudioSpectrumEngine.getFrequencyAxis sampleRate fftSize).get ⟨i, h⟩ =
          (i : ℚ) * (sampleRate / (fftSize : ℚ))) ∧
     (2 ≤ fftSize → (WebAudioSpectrumEngine.getFrequencyAxis sampleRate fftSize).head? = some 0)) := by
  refine ⟨⟨?_, ?_, ?_, ?_, ConfigManager.normalize_samplingRate_pos cfg,
      ConfigManager.normalize_fftSize_pos cfg⟩, ?_, ?_, ?_, ?_, ?_⟩
  · intro h
    rw [ConfigManager.normalize_eq]
    simp [h]
  · intro h
    rw [ConfigManager.normalize_eq]
    simp [not_le.mpr h]
  · intro h
    rw [ConfigManager.normalize_eq]
    simp [h]
  · intro h
    rw [ConfigManager.normalize_eq]
    simp [not_le.mpr h]
  · rw [ConfigManager.normalize_eq]
    refine ⟨rfl, rfl, rfl, rfl, rfl, rfl, rfl, rfl, rfl, rfl, rfl, rfl, rfl, rfl, rfl, rfl⟩
  · unfold ConfigManager.apply ConfigManager.buildDerived
    simp
  · unfold WebAudioSpectrumEngine.getFrequencyAxis
    rw [List.length_map, List.length_range]
  · intro i h
    unfold WebAudioSpectrumEngine.getFrequencyAxis at h ⊢
    simp only [List.get_eq_getElem, List.getElem_map, List.getElem_range]
  · intro h2
    have hpos : 0 < fftSize / 2 := Nat.div_pos h2 (by norm_num)
    unfold WebAudioSpectrumEngine.getFrequencyAxis
    rcases Nat.exists_eq_add_of_lt hpos with ⟨k, hk⟩
    rw [show fftSize / 2 = k + 1 by omega]
    simp [List.range_succ_eq_map]

/-- Witness for C7: a concrete configuration with non-positive sampling rate
and FFT size, and the concrete axis for sampleRate 44100, fftSize 8. -/
theorem configManager_normalize_derive_axis_witness :
    (ConfigManager.normalize { DEFAULT_CONFIG with samplingRate := -5, fftSize := 0 }).samplingRate = 44100 ∧
    (ConfigManager.normalize { DEFAULT_CONFIG with samplingRate := -5, fftSize := 0 }).fftSize = 1024 ∧
    (WebAudioSpectrumEngine.getFrequencyAxis 44100 8).length = 4 ∧
    (WebAudioSpectrumEngine.getFrequencyAxis 44100 8).head? = some 0 := by
  have h := configManager_normalize_derive_axis
    { DEFAULT_CONFIG with samplingRate := -5, fftSize := 0 } 44100 8 (by norm_num) (by norm_num)
  exact ⟨h.1.1 (by norm_num), h.1.2.2.1 (by norm_num), h.2.2.2.1, h.2.2.2.2.2 (by norm_num)⟩

/- ===================== MeasurementController ===================== -/

namespace MeasurementController

/-- The controller's internal state machine values:
`STOPPED` / `STARTING` / `RUNNING` in the source. -/
inductive Phase where
  | STOPPED
  | STARTING
  | RUNNING
deriving DecidableEq, Repr

/-- The lifecycle-relevant module state: the `state` string and whether
`engine` is non-null. -/
structure LifecycleState where
  phase : Phase
  engineAllocated : Bool
deriving DecidableEq, Repr

/-- `MeasurementController.start`, with the outcome of the awaited
`engine.init` made explicit (`initOk = false` models a rejected promise,
e.g. microphone permission denied).  Returns the resulting module state and
whether the promise returned by `start()` is fulfilled (`false` = the
rejection propagates to the caller).  The source has no `try`/`catch`: on a
rejection the function aborts after `state = "STARTING"` and
`engine = new WebAudioSpectrumEngine()` have already run. -/
def start (initOk : Bool) (s : LifecycleState) : LifecycleState × Bool :=
  if s.phase ≠ Phase.STOPPED then (s, true)
  else
    let s1 : LifecycleState := { phase := Phase.STARTING, engineAllocated := true }
    if initOk then ({ s1 with phase := Phase.RUNNING }, true)
    else (s1, false)

/-- `MeasurementController.stop`: no-op when `STOPPED`; otherwise destroys
the engine and returns to `STOPPED`. -/
def stop (s : LifecycleState) : LifecycleState :=
  if s.phase = Phase.STOPPED then s
  else { phase := Phase.STOPPED, engineAllocated := false }

/-- `hopTimeSec` as computed by `MeasurementController.updateConfig`:
`(fftSize / sampleRate) * (1.0 - overlap)`, where `overlap` is
`config.overlap ?? 0.0` and `sampleRate` is the engine's actual rate. -/
def updateConfigHopTimeSec (cfg : Config) (engineSampleRate : ℚ) : ℚ :=
  (cfg.fftSize / engineSampleRate) * (1 - cfg.overlap.getD 0)

/-- `applyDbOffset`: add `offsetDb` to every bin. -/
def applyDbOffset (rawSpectrum : List ℝ) (offsetDb : ℚ) : List ℝ :=
  rawSpectrum.map (fun v => v + (offsetDb : ℝ))

/-- `applyLinearGain`: multiply every bin by `10 ^ (offsetDb / 20)`. -/
noncomputable def applyLinearGain (rawSpectrum : List ℝ) (offsetDb : ℚ) : List ℝ :=
  rawSpectrum.map (fun v => v * (10 : ℝ) ^ (((offsetDb : ℝ)) / 20))

/-- The frame-producing state of the controller: `lastFFTTime`,
`latestSpectrum`, `latestWaveform`, `latestTimeSec`. -/
structure FrameState where
  lastFFTTime : ℚ
  latestSpectrum : Option (List ℝ)
  latestWaveform : Option (List ℝ)
  latestTimeSec : ℚ

/-- The inputs one display-refresh tick supplies to `buildGraphData`: the
wall-clock time `performance.now() / 1000`, the engine's raw spectrum
(`none` models a `null` return), the waveform, and the engine clock. -/
structure TickInput where
  now : ℚ
  raw : Option (List ℝ)
  waveform : Option (List ℝ)
  engineTime : ℚ

/-- `MeasurementController.buildGraphData`: the hop-time gate.  If less
than `hopTimeSec` has elapsed since `lastFFTTime`, nothing changes.
Otherwise `lastFFTTime` is advanced; if a raw spectrum is available it is
corrected (dB offset or linear gain) and published together with the
waveform and elapsed time. -/
noncomputable def buildGraphData (cfg : Config) (hopTimeSec measurementStartTime : ℚ)
    (s : FrameState) (t : TickInput) : FrameState :=
  if t.now - s.lastFFTTime < hopTimeSec then s
  else
    let s1 := { s with lastFFTTime := t.now }
    match t.raw with
    | none => s1
    | some r =>
      { s1 with
        latestSpectrum := some (if cfg.dbDisplay then applyDbOffset r cfg.dbCorrectionGain
                                else applyLinearGain r cfg.dbCorrectionGain),
        latestWaveform := t.waveform,
        latestTimeSec := t.engineTime - measurementStartTime }

/-- A tick passes the gate and publishes a new frame exactly when the hop
time has elapsed and the engine returned a spectrum. -/
def emits (hopTimeSec : ℚ) (s : FrameState) (t : TickInput) : Bool :=
  (decide (¬ (t.now - s.lastFFTTime < hopTimeSec))) && t.raw.isSome

/-- The wall-clock times of the ticks that publish a new `latestSpectrum`
while running `buildGraphData` over a sequence of refresh ticks. -/
noncomputable def emissionTimes (cfg : Config) (hopTimeSec measurementStartTime : ℚ)
    (s : FrameState) : List TickInput → List ℚ
  | [] => []
  | t :: rest =>
    (if emits hopTimeSec s t then [t.now] else []) ++
      emissionTimes cfg hopTimeSec measurementStartTime
        (buildGraphData cfg hopTimeSec measurementStartTime s t) rest

theorem buildGraphData_lastFFTTime (cfg : Config) (hop mst : ℚ) (s : FrameState)
    (t : TickInput) (h : ¬ t.now - s.lastFFTTime < hop) :
    (buildGraphData cfg hop mst s t).lastFFTTime = t.now := by
  unfold buildGraphData
  rw [if_neg h]
  cases t.raw <;> rfl

theorem buildGraphData_skip (cfg : Config) (hop mst : ℚ) (s : FrameState)
    (t : TickInput) (h : t.now - s.lastFFTTime < hop) :
    buildGraphData cfg hop mst s t = s := by
  unfold buildGraphData
  rw [if_pos h]

theorem emissionTimes_nil (cfg : Config) (hop mst : ℚ) (s : FrameState) :
    emissionTimes cfg hop mst s [] = [] := rfl

theorem emissionTimes_cons (cfg : Config) (hop mst : ℚ) (s : FrameState)
    (t : TickInput) (rest : List TickInput) :
    emissionTimes cfg hop mst s (t :: rest) =
      (if emits hop s t then [t.now] else []) ++
        emissionTimes cfg hop mst (buildGraphData cfg hop mst s t) rest := rfl

theorem emissionTimes_spacing (cfg : Config) (hop mst : ℚ) (hhop : 0 ≤ hop) :
    ∀ (trace : List TickInput) (s : FrameState),
      (∀ u ∈ emissionTimes cfg hop mst s trace, s.lastFFTTime + hop ≤ u) ∧
      List.Chain' (fun a b => a + hop ≤ b) (emissionTimes cfg hop mst s trace) := by
  intro trace
  induction trace with
  | nil =>
    intro s
    rw [emissionTimes_nil]
    exact ⟨by intro u hu; simp at hu, List.chain'_nil⟩
  | cons t rest ih =>
    intro s
    rw [emissionTimes_cons]
    by_cases hg : t.now - s.lastFFTTime < hop
    · -- gate closed: the state is unchanged and the tick emits nothing
      have hskip := buildGraphData_skip cfg hop mst s t hg
      have hemit : emits hop s t = false := by
        unfold emits
        simp [hg]
      rw [hemit, hskip]
      simpa using ih s
    · -- gate open: lastFFTTime advances to t.now
      have hlast := buildGraphData_lastFFTTime cfg hop mst s t hg
      have hnow : s.lastFFTTime + hop ≤ t.now := by
        by_contra hc
        exact hg (by linarith [not_le.mp hc])
      have htail := ih (buildGraphData cfg hop mst s t)
      rw [hlast] at htail
      by_cases hr : (t.raw.isSome : Prop)
      · have hemit : emits hop s t = true := by
          unfold emits
          simp [hg, hr]
        rw [hemit]
        simp only [if_true, List.singleton_append]
        refine ⟨?_, ?_⟩
        · intro u hu
          rcases List.mem_cons.mp hu with hu | hu
          · rw [hu]; exact hnow
          · linarith [htail.1 u hu]
        · exact List.chain'_cons'.mpr ⟨fun u hu => by
            have := htail.1 u (List.mem_of_mem_head? hu)
            linarith, htail.2⟩
      · have hr' : t.raw.isSome = false := by simpa using hr
        have hemit : emits hop s t = false := by
          unfold emits
          simp [hr']
        rw [hemit]
        simp only [Bool.false_eq_true, if_false, List.nil_append]
        refine ⟨?_, htail.2⟩
        intro u hu
        linarith [htail.1 u hu]

end MeasurementController

/- ===================== Claim C1 ===================== -/

/-- C1 (code evaluated at the failing input): starting from `STOPPED`, if
`engine.init` rejects during `start()` then the rejection propagates to the
caller (the promise is not fulfilled), but the state machine is left stuck
in `STARTING` — not in `STOPPED` as the specification requires — and every
further `start()` call is a no-op. -/
theorem measurementController_start_initFailure_stuck :
    (MeasurementController.start false ⟨MeasurementController.Phase.STOPPED, false⟩).2 = false ∧
    (MeasurementController.start false
      ⟨MeasurementController.Phase.STOPPED, false⟩).1.phase = MeasurementController.Phase.STARTING ∧
    (MeasurementController.start false
      ⟨MeasurementController.Phase.STOPPED, false⟩).1.phase ≠ MeasurementController.Phase.STOPPED ∧
    (∀ b : Bool,
      MeasurementController.start b
          (MeasurementController.start false ⟨MeasurementController.Phase.STOPPED, false⟩).1 =
        ((MeasurementController.start false ⟨MeasurementController.Phase.STOPPED, false⟩).1, true)) := by
  refine ⟨rfl, rfl, by decide, ?_⟩
  intro b
  cases b <;> rfl

/- ===================== Claim C3 ===================== -/

/-- C3: with `hopTimeSec = (fftSize / sampleRate) * (1 - overlap)` as set by
`MeasurementController.updateConfig` (non-negative whenever `fftSize ≥ 0`,
`sampleRate ≥ 0` and `overlap ≤ 1`), any two consecutive published frames
along any sequence of display-refresh ticks have emission times at least
`hopTimeSec` apart; and a tick arriving before `hopTimeSec` has elapsed
since `lastFFTTime` changes nothing — the previous frame remains the
latest. -/
theorem measurementController_hop_gate (cfg : Config) (engineSampleRate mst : ℚ)
    (s : MeasurementController.FrameState) (trace : List MeasurementController.TickInput)
    (hfft : 0 ≤ cfg.fftSize) (hsr : 0 ≤ engineSampleRate) (hov : cfg.overlap.getD 0 ≤ 1) :
    List.Chain'
      (fun a b => a + MeasurementController.updateConfigHopTimeSec cfg engineSampleRate ≤ b)
      (MeasurementController.emissionTimes cfg
        (MeasurementController.updateConfigHopTimeSec cfg engineSampleRate) mst s trace) ∧
    (∀ t : MeasurementController.TickInput,
      t.now - s.lastFFTTime < MeasurementController.updateConfigHopTimeSec cfg engineSampleRate →
      MeasurementController.buildGraphData cfg
        (MeasurementController.updateConfigHopTimeSec cfg engineSampleRate) mst s t = s) := by
  have hhop : 0 ≤ MeasurementController.updateConfigHopTimeSec cfg engineSampleRate := by
    unfold MeasurementController.updateConfigHopTimeSec
    have h1 : 0 ≤ cfg.fftSize / engineSampleRate := div_nonneg hfft hsr
    have h2 : 0 ≤ 1 - cfg.overlap.getD 0 := by linarith
    exact mul_nonneg h1 h2
  refine ⟨(MeasurementController.emissionTimes_spacing cfg _ mst hhop trace s).2, ?_⟩
  intro t ht
  exact MeasurementController.buildGraphData_skip cfg _ mst s t ht

/-- Witness for C3: the hop gate applied, with its hypotheses discharged, at
the default configuration and a concrete tick trace. -/
theorem measurementController_hop_gate_witness :
    List.Chain'
      (fun a b => a + MeasurementController.updateConfigHopTimeSec DEFAULT_CONFIG 44100 ≤ b)
      (MeasurementController.emissionTimes DEFAULT_CONFIG
        (MeasurementController.updateConfigHopTimeSec DEFAULT_CONFIG 44100) 0
        ⟨0, none, none, 0⟩
        [⟨1/100, none, none, 1/100⟩, ⟨2/100, some [(-50 : ℝ)], none, 2/100⟩]) :=
  (measurementController_hop_gate DEFAULT_CONFIG 44100 0 ⟨0, none, none, 0⟩
    [⟨1/100, none, none, 1/100⟩, ⟨2/100, some [(-50 : ℝ)], none, 2/100⟩]
    (by norm_num [DEFAULT_CONFIG]) (by norm_num) (by norm_num [DEFAULT_CONFIG])).1

/- ===================== GraphManager: history buffers ===================== -/

namespace GraphManager

/-- The eviction loop shared by `updateSpectrogram` and `updateWaterfall`:
`while (timeAxis.length > 0 && timeAxis[0] < minTime) { timeAxis.shift();
frames.shift(); }`.  A `shift()` on an empty frame list is a no-op, as in
JavaScript. -/
def evictOldEntries {σ : Type} (minTime : ℚ) : List ℚ → List σ → List ℚ × List σ
  | t :: ts, fs => if t < minTime then evictOldEntries minTime ts fs.tail else (t :: ts, fs)
  | [], fs => ([], fs)

/-- `updateSpectrogram`, restricted to its buffer effect: push `timeSec` and
the new frame, then drop entries older than
`minTime = timeSec - recordDurationSec` from the oldest end. -/
def updateSpectrogram {σ : Type} (recordDurationSec : ℚ) (timeAxis : List ℚ)
    (spectrogram : List σ) (timeSec : ℚ) (frame : σ) : List ℚ × List σ :=
  let minTime := timeSec - recordDurationSec
  evictOldEntries minTime (timeAxis ++ [timeSec]) (spectrogram ++ [frame])

/-- `updateWaterfall`, restricted to its buffer effect: identical eviction
logic over `waterfallTimes` / `waterfallFrames`. -/
def updateWaterfall {σ : Type} (recordDurationSec : ℚ) (waterfallTimes : List ℚ)
    (waterfallFrames : List σ) (timeSec : ℚ) (frame : σ) : List ℚ × List σ :=
  let minTime := timeSec - recordDurationSec
  evictOldEntries minTime (waterfallTimes ++ [timeSec]) (waterfallFrames ++ [frame])

theorem evictOldEntries_nil {σ : Type} (minTime : ℚ) (fs : List σ) :
    evictOldEntries minTime [] fs = ([], fs) := rfl

theorem evictOldEntries_cons {σ : Type} (minTime t : ℚ) (ts : List ℚ) (fs : List σ) :
    evictOldEntries minTime (t :: ts) fs =
      if t < minTime then evictOldEntries minTime ts fs.tail else (t :: ts, fs) := rfl

theorem evictOldEntries_sorted {σ : Type} (minTime : ℚ) :
    ∀ (ts : List ℚ) (fs : List σ), List.Sorted (· ≤ ·) ts →
      evictOldEntries minTime ts fs =
        (ts.filter (fun t => decide (minTime ≤ t)),
         fs.drop (ts.length - (ts.filter (fun t => decide (minTime ≤ t))).length)) := by
  intro ts
  induction ts with
  | nil => intro fs _; simp [evictOldEntries_nil]
  | cons t ts ih =>
    intro fs hsorted
    rcases List.sorted_cons.mp hsorted with ⟨hall, htail⟩
    by_cases h : t < minTime
    · have hp : (decide (minTime ≤ t)) = false := by simp [not_le.mpr h]
      rw [evictOldEntries_cons, if_pos h, ih fs.tail htail]
      have hfilter : (t :: ts).filter (fun u => decide (minTime ≤ u))
          = ts.filter (fun u => decide (minTime ≤ u)) := by
        simp [List.filter_cons, hp]
      rw [hfilter]
      have hle : (ts.filter (fun u => decide (minTime ≤ u))).length ≤ ts.length :=
        List.length_filter_le _ _
      have hdrop : fs.tail.drop (ts.length - (ts.filter (fun u => decide (minTime ≤ u))).length)
          = fs.drop ((t :: ts).length - (ts.filter (fun u => decide (minTime ≤ u))).length) := by
        rw [← List.drop_one, List.drop_drop]
        congr 1
        simp only [List.length_cons]
        omega
      rw [hdrop]
    · have hp : (decide (minTime ≤ t)) = true := by simp [not_lt.mp h]
      have hlhs : evictOldEntries minTime (t :: ts) fs = (t :: ts, fs) := by
        rw [evictOldEntries_cons, if_neg h]
      have hfilter : (t :: ts).filter (fun u => decide (minTime ≤ u)) = t :: ts := by
        apply List.filter_eq_self.mpr
        intro a ha
        rcases List.mem_cons.mp ha with ha | ha
        · rw [ha]; exact hp
        · simp only [decide_eq_true_eq]
          linarith [hall a ha, not_lt.mp h]
      rw [hlhs, hfilter]
      simp

end GraphManager

/- ===================== Claim C8 ===================== -/

/-- C8: on each append to a history panel's buffer (heatmap/spectrogram and
3-D waterfall), with timestamps in increasing order, every entry whose
timestamp is strictly below `cutoff = timeSec - recordDurationSec` is
dropped from the oldest end and every entry with timestamp `≥ cutoff` is
retained (the frame list is shifted in step with the time axis). -/
theorem graphManager_history_eviction {σ : Type} (recordDurationSec : ℚ)
    (timeAxis : List ℚ) (frames : List σ) (timeSec : ℚ) (frame : σ)
    (hsorted : List.Sorted (· ≤ ·) (timeAxis ++ [timeSec])) :
    (GraphManager.updateSpectrogram recordDurationSec timeAxis frames timeSec frame =
      ((timeAxis ++ [timeSec]).filter (fun t => decide (timeSec - recordDurationSec ≤ t)),
       (frames ++ [frame]).drop ((timeAxis ++ [timeSec]).length -
         ((timeAxis ++ [timeSec]).filter (fun t => decide (timeSec - recordDurationSec ≤ t))).length))) ∧
    (GraphManager.updateWaterfall recordDurationSec timeAxis frames timeSec frame =
      ((timeAxis ++ [timeSec]).filter (fun t => decide (timeSec - recordDurationSec ≤ t)),
       (frames ++ [frame]).drop ((timeAxis ++ [timeSec]).length -
         ((timeAxis ++ [timeSec]).filter (fun t => decide (timeSec - recordDurationSec ≤ t))).length))) ∧
    (∀ u ∈ (GraphManager.updateSpectrogram recordDurationSec timeAxis frames timeSec frame).1,
      timeSec - recordDurationSec ≤ u) := by
  have h1 := GraphManager.evictOldEntries_sorted (σ := σ) (timeSec - recordDurationSec)
    (timeAxis ++ [timeSec]) (frames ++ [frame]) hsorted
  refine ⟨h1, h1, ?_⟩
  intro u hu
  unfold GraphManager.updateSpectrogram at hu
  rw [h1] at hu
  simp only [List.mem_filter, decide_eq_true_eq] at hu
  exact hu.2

/-- Witness for C8: duration 10, entries timestamped 0, 3, 6, 9; appending
the entry at t = 12 leaves exactly the entries timestamped 3, 6, 9, 12. -/
theorem graphManager_history_eviction_witness :
    GraphManager.updateSpectrogram (10 : ℚ) [0, 3, 6, 9] [(0 : ℕ), 1, 2, 3] 12 4 =
      ([3, 6, 9, 12], [1, 2, 3, 4]) := by
  have h := graphManager_history_eviction (10 : ℚ) [0, 3, 6, 9] [(0 : ℕ), 1, 2, 3] 12 4
    (by norm_num [List.Sorted, List.sorted_cons])
  rw [h.1]
  norm_num

/- ============== GraphManager: frequency-range resolver ============== -/

/-- The resolved frequency range returned by `buildFrequencyRange`
(`{ min, max }` in the source); in log mode the components are `log10`
values. -/
structure FrequencyRange where
  min : ℝ
  max : ℝ

theorem FrequencyRange.ext' {a b : FrequencyRange}
    (h1 : a.min = b.min) (h2 : a.max = b.max) : a = b := by
  cases a
  cases b
  simp_all

namespace GraphManager

/-- `linMin` in `buildFrequencyRange`: `freqAxis[1]` in log mode (log of
zero is undefined), `freqAxis[0]` in linear mode.  The out-of-range default
is irrelevant under the guard `freqAxis.length ≥ 2`. -/
def linMinOf (freqLog : Bool) (freqAxis : List ℚ) : ℚ :=
  if freqLog then freqAxis.getD 1 0 else freqAxis.getD 0 0

/-- `linMax` in `buildFrequencyRange`: `freqAxis[freqAxis.length - 1]`. -/
def linMaxOf (freqAxis : List ℚ) : ℚ :=
  freqAxis.getD (freqAxis.length - 1) 0

/-- The reset-and-clamp core of `buildFrequencyRange` (everything before
the optional `Math.log10`): reset an `fMin` beyond `linMax` to `linMin`, an
`fMax` below `linMin` to `linMax`, then `fMin = max(fMin, linMin)` and
`fMax = min(fMax, linMax)`. -/
def clampFrequencyRange (freqLog : Bool) (freqAxis : List ℚ)
    (fMinInput fMaxInput : ℚ) : ℚ × ℚ :=
  let linMin := linMinOf freqLog freqAxis
  let linMax := linMaxOf freqAxis
  let fMin := if fMinInput > linMax then linMin else fMinInput
  let fMax := if fMaxInput < linMin then linMax else fMaxInput
  (max fMin linMin, min fMax linMax)

/-- `GraphManager.buildFrequencyRange`: with no live axis (engine absent,
so `getFrequencyAxis()` returned `undefined`) or fewer than two bins, a
fixed default range; otherwise the clamped range, passed through
`Math.log10` when `config.freqLog` is set. -/
noncomputable def buildFrequencyRange (config : Config) (freqAxis : Option (List ℚ)) :
    FrequencyRange :=
  match freqAxis with
  | none => if config.freqLog then ⟨0, Real.logb 10 20000⟩ else ⟨0, 20000⟩
  | some axis =>
    if axis.length < 2 then
      if config.freqLog then ⟨0, Real.logb 10 20000⟩ else ⟨0, 20000⟩
    else
      let p := clampFrequencyRange config.freqLog axis config.freqMinInput config.freqMaxInput
      if config.freqLog then ⟨Real.logb 10 (p.1 : ℝ), Real.logb 10 (p.2 : ℝ)⟩
      else ⟨(p.1 : ℝ), (p.2 : ℝ)⟩

theorem buildFrequencyRange_none_eq (config : Config) :
    buildFrequencyRange config none =
      if config.freqLog then ⟨0, Real.logb 10 20000⟩ else ⟨0, 20000⟩ := rfl

theorem buildFrequencyRange_some_eq (config : Config) (axis : List ℚ) :
    buildFrequencyRange config (some axis) =
      if axis.length < 2 then
        if config.freqLog then ⟨0, Real.logb 10 20000⟩ else ⟨0, 20000⟩
      else
        if config.freqLog then
          ⟨Real.logb 10
            ((clampFrequencyRange config.freqLog axis config.freqMinInput config.freqMaxInput).1 : ℝ),
           Real.logb 10
            ((clampFrequencyRange config.freqLog axis config.freqMinInput config.freqMaxInput).2 : ℝ)⟩
        else
          ⟨((clampFrequencyRange config.freqLog axis config.freqMinInput config.freqMaxInput).1 : ℝ),
           ((clampFrequencyRange config.freqLog axis config.freqMinInput config.freqMaxInput).2 : ℝ)⟩ := rfl

theorem clampFrequencyRange_eq (freqLog : Bool) (axis : List ℚ)
    (fMinInput fMaxInput : ℚ) :
    clampFrequencyRange freqLog axis fMinInput fMaxInput =
      ((if fMinInput > linMaxOf axis then linMinOf freqLog axis else fMinInput) ⊔ linMinOf freqLog axis,
       (if fMaxInput < linMinOf freqLog axis then linMaxOf axis else fMaxInput) ⊓ linMaxOf axis) := rfl

theorem clampFrequencyRange_fst_le_snd (freqLog : Bool) (axis : List ℚ)
    (fMinInput fMaxInput : ℚ) (hreq : fMinInput ≤ fMaxInput)
    (hmm : linMinOf freqLog axis ≤ linMaxOf axis) :
    (clampFrequencyRange freqLog axis fMinInput fMaxInput).1 ≤
      (clampFrequencyRange freqLog axis fMinInput fMaxInput).2 := by
  unfold clampFrequencyRange
  simp only [max_le_iff, le_min_iff]
  split_ifs with h1 h2 h2 <;>
    refine ⟨⟨?_, ?_⟩, ?_, ?_⟩ <;> linarith

theorem clampFrequencyRange_fst_pos (freqLog : Bool) (axis : List ℚ)
    (fMinInput fMaxInput : ℚ) (hpos : 0 < linMinOf freqLog axis) :
    0 < (clampFrequencyRange freqLog axis fMinInput fMaxInput).1 := by
  unfold clampFrequencyRange
  exact lt_of_lt_of_le hpos (le_max_right _ _)

end GraphManager

/- ===================== Claim C2 ===================== -/

/-- C2 counterexample: in linear mode over the live axis `[0, 10000, 20000]`
(at least two entries), requested bounds `min = 10000`, `max = 5000` —
inverted but both inside the live range — resolve to `(10000, 5000)`, so the
claimed invariant `min < max` fails. -/
theorem buildFrequencyRange_inverted_not_lt :
    (GraphManager.buildFrequencyRange
        { DEFAULT_CONFIG with freqLog := false, freqMinInput := 10000, freqMaxInput := 5000 }
        (some [0, 10000, 20000])).min = (10000 : ℝ) ∧
    (GraphManager.buildFrequencyRange
        { DEFAULT_CONFIG with freqLog := false, freqMinInput := 10000, freqMaxInput := 5000 }
        (some [0, 10000, 20000])).max = (5000 : ℝ) ∧
    ¬ ((GraphManager.buildFrequencyRange
          { DEFAULT_CONFIG with freqLog := false, freqMinInput := 10000, freqMaxInput := 5000 }
          (some [0, 10000, 20000])).min <
        (GraphManager.buildFrequencyRange
          { DEFAULT_CONFIG with freqLog := false, freqMinInput := 10000, freqMaxInput := 5000 }
          (some [0, 10000, 20000])).max) := by
  have h : GraphManager.buildFrequencyRange
      { DEFAULT_CONFIG with freqLog := false, freqMinInput := 10000, freqMaxInput := 5000 }
      (some [0, 10000, 20000]) = ⟨((10000 : ℚ) : ℝ), ((5000 : ℚ) : ℝ)⟩ := by
    unfold GraphManager.buildFrequencyRange
    norm_num [GraphManager.clampFrequencyRange, GraphManager.linMinOf, GraphManager.linMaxOf]
  rw [h]
  norm_num

/-- C2 amended: provided the requested bounds are not inverted
(`freqMinInput ≤ freqMaxInput`) and the live axis's clamp bounds are
ordered (`linMin ≤ linMax`, with `linMin > 0` in log mode), the resolved
range satisfies `min ≤ max`; equality can occur at the boundary, and with
inverted in-range requests the resolver returns `min > max`. -/
theorem buildFrequencyRange_min_le_max (cfg : Config) (axis : List ℚ)
    (hlen : 2 ≤ axis.length)
    (hreq : cfg.freqMinInput ≤ cfg.freqMaxInput)
    (hmm : GraphManager.linMinOf cfg.freqLog axis ≤ GraphManager.linMaxOf axis)
    (hpos : cfg.freqLog = true → 0 < GraphManager.linMinOf cfg.freqLog axis) :
    (GraphManager.buildFrequencyRange cfg (some axis)).min ≤
      (GraphManager.buildFrequencyRange cfg (some axis)).max := by
  have hlen' : ¬ axis.length < 2 := not_lt.mpr hlen
  have hle := GraphManager.clampFrequencyRange_fst_le_snd cfg.freqLog axis
    cfg.freqMinInput cfg.freqMaxInput hreq hmm
  rw [GraphManager.buildFrequencyRange_some_eq, if_neg hlen']
  cases hlog : cfg.freqLog with
  | false =>
    rw [hlog] at hle
    simp only [Bool.false_eq_true, if_false]
    exact_mod_cast hle
  | true =>
    rw [hlog] at hle hpos
    simp only [if_true]
    have h1 : 0 < (GraphManager.clampFrequencyRange true axis cfg.freqMinInput cfg.freqMaxInput).1 :=
      GraphManager.clampFrequencyRange_fst_pos true axis _ _ (hpos rfl)
    exact Real.logb_le_logb_of_le (by norm_num) (by exact_mod_cast h1) (by exact_mod_cast hle)

/-- Witness for C2 (amended): the amended bound applied at the live axis
`[0, 100, 200]` and the default (log-mode) configuration. -/
theorem buildFrequencyRange_min_le_max_witness :
    (GraphManager.buildFrequencyRange DEFAULT_CONFIG (some [0, 100, 200])).min ≤
      (GraphManager.buildFrequencyRange DEFAULT_CONFIG (some [0, 100, 200])).max :=
  buildFrequencyRange_min_le_max DEFAULT_CONFIG [0, 100, 200]
    (by norm_num)
    (by norm_num [DEFAULT_CONFIG])
    (by norm_num [DEFAULT_CONFIG, GraphManager.linMinOf, GraphManager.linMaxOf])
    (by intro _; norm_num [DEFAULT_CONFIG, GraphManager.linMinOf])

/- ===================== Claim C4 ===================== -/

/-- C4: the resolver clamps both ends to the live axis: a requested min
above the live maximum is reset to the live minimum valid value, a
requested max below the live minimum valid value is reset to the live
maximum, and both ends land inside `[linMin, linMax]`; in particular, on
the linear live axis `[0, 10000, 20000]` the requested range
`[-500, 50000]` resolves to exactly `(0, 20000)`. -/
theorem buildFrequencyRange_clamps :
    (∀ (lg : Bool) (axis : List ℚ) (fMinInput fMaxInput : ℚ),
      2 ≤ axis.length →
      GraphManager.linMinOf lg axis ≤ GraphManager.linMaxOf axis →
      ((fMinInput > GraphManager.linMaxOf axis →
          (GraphManager.clampFrequencyRange lg axis fMinInput fMaxInput).1 =
            GraphManager.linMinOf lg axis) ∧
       (fMaxInput < GraphManager.linMinOf lg axis →
          (GraphManager.clampFrequencyRange lg axis fMinInput fMaxInput).2 =
            GraphManager.linMaxOf axis) ∧
       GraphManager.linMinOf lg axis ≤ (GraphManager.clampFrequencyRange lg axis fMinInput fMaxInput).1 ∧
       (GraphManager.clampFrequencyRange lg axis fMinInput fMaxInput).1 ≤ GraphManager.linMaxOf axis ∧
       GraphManager.linMinOf lg axis ≤ (GraphManager.clampFrequencyRange lg axis fMinInput fMaxInput).2 ∧
       (GraphManager.clampFrequencyRange lg axis fMinInput fMaxInput).2 ≤ GraphManager.linMaxOf axis)) ∧
    GraphManager.buildFrequencyRange
        { DEFAULT_CONFIG with freqLog := false, freqMinInput := -500, freqMaxInput := 50000 }
        (some [0, 10000, 20000]) = ⟨0, 20000⟩ := by
  constructor
  · intro lg axis fMinInput fMaxInput _ hmm
    rw [GraphManager.clampFrequencyRange_eq]
    refine ⟨fun hc => ?_, fun hc => ?_, le_max_right _ _, ?_, ?_, min_le_right _ _⟩
    · dsimp only
      rw [if_pos hc]
      exact max_self _
    · dsimp only
      rw [if_pos hc]
      exact min_self _
    · dsimp only
      split_ifs with h
      · simpa using hmm
      · exact max_le (le_of_not_lt h) hmm
    · dsimp only
      split_ifs with h
      · simpa using hmm
      · exact le_min (le_of_not_lt h) hmm
  · have hp : GraphManager.clampFrequencyRange false [0, 10000, 20000] (-500) 50000
        = ((0 : ℚ), (20000 : ℚ)) := by
      norm_num [GraphManager.clampFrequencyRange, GraphManager.linMinOf, GraphManager.linMaxOf]
    rw [GraphManager.buildFrequencyRange_some_eq]
    norm_num [hp]

/-- Witness for C4: the clamping facts applied at the live axis
`[0, 10000, 20000]` with a stale request (min above the live maximum, max
below the live minimum), which resets to the full live range. -/
theorem buildFrequencyRange_clamps_witness :
    (GraphManager.clampFrequencyRange false [0, 10000, 20000] 30000 (-100)).1 =
      GraphManager.linMinOf false [0, 10000, 20000] ∧
    (GraphManager.clampFrequencyRange false [0, 10000, 20000] 30000 (-100)).2 =
      GraphManager.linMaxOf [0, 10000, 20000] ∧
    GraphManager.linMinOf false [0, 10000, 20000] ≤
      (GraphManager.clampFrequencyRange false [0, 10000, 20000] 30000 (-100)).1 := by
  have h := buildFrequencyRange_clamps.1 false [0, 10000, 20000] 30000 (-100)
    (by norm_num)
    (by norm_num [GraphManager.linMinOf, GraphManager.linMaxOf])
  exact ⟨h.1 (by norm_num [GraphManager.linMaxOf]),
         h.2.1 (by norm_num [GraphManager.linMinOf]),
         h.2.2.1⟩

/- ===================== Claim C5 ===================== -/

/-- C5 counterexample: log mode over the live axis `[0, 1, 2]` (first entry
0, strictly increasing) with requested range `[0, 2]`: the lower bound is
clamped to the first nonzero bin `1` and `log10 1 = 0`, so the resolver
does return a resolved minimum of exactly `0`. -/
theorem buildFrequencyRange_log_min_zero_example :
    (GraphManager.buildFrequencyRange
        { DEFAULT_CONFIG with freqLog := true, freqMinInput := 0, freqMaxInput := 2 }
        (some [0, 1, 2])).min = 0 := by
  have hp : GraphManager.clampFrequencyRange true [0, 1, 2] 0 2 = ((1 : ℚ), (2 : ℚ)) := by
    norm_num [GraphManager.clampFrequencyRange, GraphManager.linMinOf, GraphManager.linMaxOf]
  rw [GraphManager.buildFrequencyRange_some_eq]
  norm_num [hp]

/-- C5 amended: in log mode over a live axis with at least two entries, the
lower clamp bound is the second axis entry (`freqAxis[1]`, the first
nonzero bin of an engine axis starting at 0); whenever that entry is
positive, the value passed to `log10` for the resolved minimum is positive
— `log10` is never applied to 0 — and the resolved minimum is the `log10`
of that positive clamped value (which is `0` itself exactly when the
clamped value is 1 Hz). -/
theorem buildFrequencyRange_log_clamp_positive (cfg : Config) (axis : List ℚ)
    (hlog : cfg.freqLog = true) (hlen : 2 ≤ axis.length)
    (hpos : 0 < GraphManager.linMinOf true axis) :
    0 < (GraphManager.clampFrequencyRange true axis cfg.freqMinInput cfg.freqMaxInput).1 ∧
    (GraphManager.buildFrequencyRange cfg (some axis)).min =
      Real.logb 10
        ((GraphManager.clampFrequencyRange true axis cfg.freqMinInput cfg.freqMaxInput).1 : ℝ) := by
  have hlen' : ¬ axis.length < 2 := not_lt.mpr hlen
  refine ⟨GraphManager.clampFrequencyRange_fst_pos true axis _ _ hpos, ?_⟩
  rw [GraphManager.buildFrequencyRange_some_eq, if_neg hlen', hlog]
  simp

/-- Witness for C5 (amended): the positive-clamp property applied at the
default (log-mode) configuration over the live axis `[0, 100, 200]`. -/
theorem buildFrequencyRange_log_clamp_positive_witness :
    0 < (GraphManager.clampFrequencyRange true [0, 100, 200]
          DEFAULT_CONFIG.freqMinInput DEFAULT_CONFIG.freqMaxInput).1 ∧
    (GraphManager.buildFrequencyRange DEFAULT_CONFIG (some [0, 100, 200])).min =
      Real.logb 10
        ((GraphManager.clampFrequencyRange true [0, 100, 200]
          DEFAULT_CONFIG.freqMinInput DEFAULT_CONFIG.freqMaxInput).1 : ℝ) :=
  buildFrequencyRange_log_clamp_positive DEFAULT_CONFIG [0, 100, 200]
    (by norm_num [DEFAULT_CONFIG])
    (by norm_num)
    (by norm_num [GraphManager.linMinOf])

/- ===================== Claim C10 ===================== -/

/-- C10: when the live frequency axis is unavailable (`undefined`) or has
fewer than two entries, `buildFrequencyRange` ignores the requested bounds
entirely and returns the fixed default range — `(0, 20000)` in linear mode
and `(0, log10 20000)` in log mode — so in this fallback case the resolved
minimum is `0` even with the log-mode flag set. -/
theorem buildFrequencyRange_fallback (cfg : Config) (freqAxis : Option (List ℚ))
    (h : freqAxis = none ∨ ∃ axis, freqAxis = some axis ∧ axis.length < 2) :
    GraphManager.buildFrequencyRange cfg freqAxis =
      (if cfg.freqLog then ⟨0, Real.logb 10 20000⟩ else ⟨0, 20000⟩) ∧
    (GraphManager.buildFrequencyRange cfg freqAxis).min = 0 := by
  have heq : GraphManager.buildFrequencyRange cfg freqAxis =
      (if cfg.freqLog then ⟨0, Real.logb 10 20000⟩ else ⟨0, 20000⟩) := by
    rcases h with h | ⟨axis, rfl, hshort⟩
    · rw [h, GraphManager.buildFrequencyRange_none_eq]
    · rw [GraphManager.buildFrequencyRange_some_eq, if_pos hshort]
  refine ⟨heq, ?_⟩
  rw [heq]
  cases cfg.freqLog <;> simp

/-- Witness for C10: with the default configuration (log mode on) and no
live axis, the resolver returns the fixed default range with minimum 0. -/
theorem buildFrequencyRange_fallback_witness :
    GraphManager.buildFrequencyRange DEFAULT_CONFIG none =
      (if DEFAULT_CONFIG.freqLog then ⟨0, Real.logb 10 20000⟩ else ⟨0, 20000⟩) ∧
    (GraphManager.buildFrequencyRange DEFAULT_CONFIG none).min = 0 :=
  buildFrequencyRange_fallback DEFAULT_CONFIG none (Or.inl rfl)

/- ===================== app.js: settings-edit session ===================== -/

/-- The settings-modal edit surface: the current values of the inputs
declared in `CONFIG_UI_MAP`.  Number inputs hold `Option ℚ` — `none`
models a value that does not read back as a finite number (the
`Number.isFinite` guard in `normalizeFrequencyInputsInUI`).  Radio groups
hold `Option String` — `none` models "no button checked", which
`readConfigFromUI` resolves to the default.  The two `select` elements
always carry a numeric value. -/
structure UIConfig where
  autoScale : Bool
  dbDisplay : Bool
  freqLog : Bool
  autoScrollMode : Bool
  autoPeakCursor : Bool
  maxAmplitudeInput : Option ℚ
  minAmplitudeInput : Option ℚ
  freqMinInput : Option ℚ
  freqMaxInput : Option ℚ
  recordDurationSec : Option ℚ
  dbCorrectionGain : Option ℚ
  graphType : Option String
  colorScale : Option String
  fftWindow : Option String
  samplingRate : ℚ
  fftSize : ℚ
deriving DecidableEq, Repr

/-- `readConfigFromUI`: start from `DEFAULT_CONFIG` and overwrite every
mapped key from the UI.  An unchecked radio group falls back to the
default; a number input whose text is not a valid number reads back as the
empty string, which `Number()` coerces to 0. -/
def readConfigFromUI (ui : UIConfig) : Config :=
  { DEFAULT_CONFIG with
    autoScale := ui.autoScale
    dbDisplay := ui.dbDisplay
    freqLog := ui.freqLog
    autoScrollMode := ui.autoScrollMode
    autoPeakCursor := ui.autoPeakCursor
    maxAmplitudeInput := ui.maxAmplitudeInput.getD 0
    minAmplitudeInput := ui.minAmplitudeInput.getD 0
    freqMinInput := ui.freqMinInput.getD 0
    freqMaxInput := ui.freqMaxInput.getD 0
    recordDurationSec := ui.recordDurationSec.getD 0
    dbCorrectionGain := ui.dbCorrectionGain.getD 0
    graphType := ui.graphType.getD DEFAULT_CONFIG.graphType
    colorScale := ui.colorScale.getD DEFAULT_CONFIG.colorScale
    fftWindow := ui.fftWindow.getD DEFAULT_CONFIG.fftWindow
    samplingRate := ui.samplingRate
    fftSize := ui.fftSize }

/-- `syncConfigToUI`: write a configuration snapshot into the edit surface.
A radio is checked only when the config value appears in the group's
`valueMap`; otherwise no button of that group ends up checked. -/
def syncConfigToUI (config : Config) : UIConfig where
  autoScale := config.autoScale
  dbDisplay := config.dbDisplay
  freqLog := config.freqLog
  autoScrollMode := config.autoScrollMode
  autoPeakCursor := config.autoPeakCursor
  maxAmplitudeInput := some config.maxAmplitudeInput
  minAmplitudeInput := some config.minAmplitudeInput
  freqMinInput := some config.freqMinInput
  freqMaxInput := some config.freqMaxInput
  recordDurationSec := some config.recordDurationSec
  dbCorrectionGain := some config.dbCorrectionGain
  graphType :=
    if ["fftWaterfall", "fftColor", "waterfallColor", "waveColor", "waveFft",
        "fftOnly", "waterfallOnly", "colorOnly", "waveOnly"].contains config.graphType
    then some config.graphType else none
  colorScale :=
    if ["Standard", "Green", "White"].contains config.colorScale
    then some config.colorScale else none
  fftWindow :=
    if ["Blackman", "Hanning", "FlatTop", "Rect"].contains config.fftWindow
    then some config.fftWindow else none
  samplingRate := config.samplingRate
  fftSize := config.fftSize

/-- The app-level state the settings session touches: the authoritative
`currentConfig`, the `lastValidValues` rollback baseline, and the edit
surface. -/
structure AppState where
  currentConfig : Config
  lastValidValues : Config
  ui : UIConfig

/-- `openSettings` (its session effect): copy `currentConfig` into the edit
surface and initialize `lastValidValues` from it.  (The
`currentAppState !== "RUNNING"` guard gates when this runs; it writes no
other state.) -/
def openSettings (s : AppState) : AppState :=
  { s with ui := syncConfigToUI s.currentConfig,
           lastValidValues := s.currentConfig }

/-- `rollbackInputs("freqMinInput")`: restore the input's UI value from
`lastValidValues`. -/
def rollbackInputsFreqMin (s : AppState) : AppState :=
  { s with ui := { s.ui with freqMinInput := some s.lastValidValues.freqMinInput } }

/-- `rollbackInputs("freqMaxInput")`: restore the input's UI value from
`lastValidValues`. -/
def rollbackInputsFreqMax (s : AppState) : AppState :=
  { s with ui := { s.ui with freqMaxInput := some s.lastValidValues.freqMaxInput } }

/-- `normalizeFrequencyInputsInUI`: normalize the UI's frequency bounds
against the UI's FFT condition.  A non-finite bound rolls that single field
back and returns early; otherwise the bounds are corrected (non-negative,
below Nyquist, at least one bin apart) when they or the FFT condition
changed, the corrected values are written back to the UI, and
`lastValidValues` is updated.  `currentConfig` is never written. -/
def normalizeFrequencyInputsInUI (s : AppState) : AppState :=
  match s.ui.freqMinInput, s.ui.freqMaxInput with
  | none, _ => rollbackInputsFreqMin s
  | some _, none => rollbackInputsFreqMax s
  | some fMin0, some fMax0 =>
    let sr := s.ui.samplingRate
    let fftSize := s.ui.fftSize
    let df := sr / fftSize
    let ny := sr / 2
    let fftConditionChanged :=
      (sr ≠ s.lastValidValues.samplingRate) ∨ (fftSize ≠ s.lastValidValues.fftSize)
    let minCond := (fMin0 ≠ s.lastValidValues.freqMinInput) ∨ fftConditionChanged
    let fMin1 :=
      if minCond then
        let a := if fMin0 < 0 then 0 else fMin0
        if a ≥ fMax0 - df then max df (fMax0 - df) else a
      else fMin0
    let ui1 := if minCond then { s.ui with freqMinInput := some fMin1 } else s.ui
    let maxCond := (fMax0 ≠ s.lastValidValues.freqMaxInput) ∨ fftConditionChanged
    let fMax1 :=
      if maxCond then
        let b := if fMax0 > ny then ny else fMax0
        if b ≤ fMin1 + df then fMin1 + df else b
      else fMax0
    let ui2 := if maxCond then { ui1 with freqMaxInput := some fMax1 } else ui1
    { s with
      ui := ui2,
      lastValidValues := { s.lastValidValues with
        samplingRate := sr, fftSize := fftSize,
        freqMinInput := fMin1, freqMaxInput := fMax1 } }

/-- `applySettings` (its configuration effect): read the edit surface and
promote it through `ConfigManager.apply` into `currentConfig`.
(Persistence and `applyConfigToSystem` consume the same new snapshot.) -/
def applySettings (s : AppState) : AppState :=
  { s with currentConfig := ConfigManager.apply (readConfigFromUI s.ui) }

/-- The actions available while the settings surface is open and `apply`
has not been pressed: an arbitrary rewrite of the edit surface (the user
typing into any field), the live normalization, and the two rollbacks. -/
inductive SessionAction where
  | edit (ui : UIConfig)
  | normalizeInputs
  | rollbackMin
  | rollbackMax

/-- One settings-session step. -/
def sessionStep (s : AppState) : SessionAction → AppState
  | SessionAction.edit ui => { s with ui := ui }
  | SessionAction.normalizeInputs => normalizeFrequencyInputsInUI s
  | SessionAction.rollbackMin => rollbackInputsFreqMin s
  | SessionAction.rollbackMax => rollbackInputsFreqMax s

theorem sessionStep_currentConfig (s : AppState) (a : SessionAction) :
    (sessionStep s a).currentConfig = s.currentConfig := by
  cases a with
  | edit ui => rfl
  | normalizeInputs =>
    unfold sessionStep normalizeFrequencyInputsInUI
    cases s.ui.freqMinInput <;> cases s.ui.freqMaxInput <;> rfl
  | rollbackMin => rfl
  | rollbackMax => rfl

/- ===================== Claim C9 ===================== -/

/-- C9: an abandoned settings-edit session leaves the authoritative
configuration unchanged — for every sequence of field edits, live
normalizations and rollbacks performed after the settings surface opened
(all of which may rewrite UI values and the `lastValidValues` baseline),
`currentConfig` is identical to its value when the session opened; and it
is exactly `applySettings` that replaces `currentConfig` (with the
normalized-and-derived snapshot read from the UI). -/
theorem abandoned_session_preserves_currentConfig (s : AppState) (acts : List SessionAction) :
    (acts.foldl sessionStep (openSettings s)).currentConfig = s.currentConfig ∧
    (∀ s' : AppState,
      (applySettings s').currentConfig = ConfigManager.apply (readConfigFromUI s'.ui) ∧
      (applySettings s').ui = s'.ui) := by
  constructor
  · have hopen : (openSettings s).currentConfig = s.currentConfig := rfl
    rw [← hopen]
    generalize openSettings s = s0
    induction acts generalizing s0 with
    | nil => rfl
    | cons a rest ih =>
      rw [List.foldl_cons, ih (sessionStep s0 a), sessionStep_currentConfig]
  · intro s'
    exact ⟨rfl, rfl⟩
